import Mathlib

/-!
Shallow embedding of the digital-pet state model (Needs, Personality,
Pet, AdvancedPet) from pet.py.  Python floats are modelled as rationals,
machine randomness and wall-clock time as explicit parameters, and the
printed death messages as an observable cause-of-death field.  Mood
modifiers are arbitrary external callables invoked only by an explicit
hook and are outside the modelled operation set.
-/

/-- Python int() applied to a rational: truncation toward zero. -/
def pyInt (q : ℚ) : ℤ := if 0 ≤ q then ⌊q⌋ else ⌈q⌉

/-- Needs record: hunger, energy, happiness, each clamped to 0..10 by
every property setter. -/
structure Needs where
  hunger : ℤ
  energy : ℤ
  happiness : ℤ
deriving DecidableEq

/-- Needs constructor: clamps each initial value to 0..10. -/
def Needs.init (initial_hunger initial_energy initial_happiness : ℤ) : Needs :=
  { hunger := max 0 (min 10 initial_hunger)
    energy := max 0 (min 10 initial_energy)
    happiness := max 0 (min 10 initial_happiness) }

/-- The hunger property setter: clamps to 0..10 before storing. -/
def Needs.setHunger (n : Needs) (value : ℤ) : Needs :=
  { n with hunger := max 0 (min 10 value) }

/-- The energy property setter: clamps to 0..10 before storing. -/
def Needs.setEnergy (n : Needs) (value : ℤ) : Needs :=
  { n with energy := max 0 (min 10 value) }

/-- The happiness property setter: clamps to 0..10 before storing. -/
def Needs.setHappiness (n : Needs) (value : ℤ) : Needs :=
  { n with happiness := max 0 (min 10 value) }

/-- Personality: a name and a trait-to-weight mapping, modelled as an
association list (Python dict keys are unique). -/
structure Personality where
  name : String
  traits : List (String × ℚ)
deriving DecidableEq

/-- Personality constructor: clamps every weight to 0..1. -/
def Personality.init (name : String) (traits : List (String × ℚ)) : Personality :=
  { name := name
    traits := traits.map (fun p => (p.1, max 0 (min 1 p.2))) }

/-- traits.get(trait, 0.5): stored weight, or the neutral default 0.5
when the trait key is absent. -/
def Personality.get_trait_influence (p : Personality) (trait : String) : ℚ :=
  match p.traits.find? (fun q => q.1 = trait) with
  | some q => q.2
  | none => 1/2

/-- Which death message was printed, if any: neglect (Pet.time_passes)
or illness (the AdvancedPet health setter). -/
inductive DeathCause where
  | neglect
  | illness
deriving DecidableEq

/-- Python str.lower(), modelled characterwise. -/
def String.lower (s : String) : String := String.mk (s.data.map Char.toLower)

/-- Case-insensitive membership test, as in
`trick.lower() in [t.lower() for t in self.tricks]`. -/
def lowerMem (xs : List String) (x : String) : Bool :=
  (xs.map String.lower).contains x.lower

/-- Pet state: needs, personality, learned tricks, liveness flag,
last-interaction timestamp, and the recorded death message. -/
structure Pet where
  name : String
  species : String
  needs : Needs
  tricks : List String
  personality : Personality
  is_alive : Bool
  last_interaction : ℚ
  death_cause : Option DeathCause
deriving DecidableEq

/-- Pet.__init__: clamps initial needs, clamps personality weights,
starts alive with no tricks; `now` models time.time(). -/
def Pet.init (name species : String) (initial_hunger initial_energy initial_happiness : ℤ)
    (personality_traits : List (String × ℚ)) (now : ℚ) : Pet :=
  { name := name
    species := species
    needs := Needs.init initial_hunger initial_energy initial_happiness
    tricks := []
    personality := Personality.init (name ++ " Personality") personality_traits
    is_alive := true
    last_interaction := now
    death_cause := none }

/-- Pet.eat: dead guard, then hunger -= int(3 - 1*pickiness) with a
max(0,·) at the call site, happiness += int(1 + 0.5*joyfulness) with a
min(10,·) at the call site, then last interaction reset. -/
def Pet.eat (p : Pet) (now : ℚ) : Pet :=
  if p.is_alive = false then p
  else
    let hunger_reduction : ℚ := 3 - 1 * p.personality.get_trait_influence "pickiness"
    let n1 := p.needs.setHunger (max 0 (p.needs.hunger - pyInt hunger_reduction))
    let happiness_increase : ℚ := 1 + (5/10) * p.personality.get_trait_influence "joyfulness"
    let n2 := n1.setHappiness (min 10 (n1.happiness + pyInt happiness_increase))
    { p with needs := n2, last_interaction := now }

/-- Pet.sleep: dead guard, then energy += int(5 + 2*laziness) with a
min(10,·) at the call site, then last interaction reset. -/
def Pet.sleep (p : Pet) (now : ℚ) : Pet :=
  if p.is_alive = false then p
  else
    let energy_increase : ℚ := 5 + 2 * p.personality.get_trait_influence "laziness"
    let n1 := p.needs.setEnergy (min 10 (p.needs.energy + pyInt energy_increase))
    { p with needs := n1, last_interaction := now }

/-- Pet.play: dead guard, then energy down, happiness up, hunger up by
personality-weighted truncated amounts, then last interaction reset. -/
def Pet.play (p : Pet) (now : ℚ) : Pet :=
  if p.is_alive = false then p
  else
    let energy_decrease : ℚ := 2 + 1 * (1 - p.personality.get_trait_influence "playfulness")
    let n1 := p.needs.setEnergy (max 0 (p.needs.energy - pyInt energy_decrease))
    let happiness_increase : ℚ := 2 + (8/10) * p.personality.get_trait_influence "playfulness"
    let n2 := n1.setHappiness (min 10 (n1.happiness + pyInt happiness_increase))
    let hunger_increase : ℚ := 1 + (3/10) * (1 - p.personality.get_trait_influence "fussiness")
    let n3 := n2.setHunger (min 10 (n2.hunger + pyInt hunger_increase))
    { p with needs := n3, last_interaction := now }

/-- Pet.get_status only prints; the state is returned unchanged. -/
def Pet.get_status (p : Pet) : Pet := p

/-- Pet.train: dead guard; if the trick is not yet known
case-insensitively, attempt with success chance 0.6 + 0.3*trainability
(`r` models random.random()): on success append the trick and raise
happiness by 2; either way reset last interaction.  If already known,
print only. -/
def Pet.train (p : Pet) (trick : String) (r now : ℚ) : Pet :=
  if p.is_alive = false then p
  else if lowerMem p.tricks trick = false then
    let success_chance : ℚ := 6/10 + (3/10) * p.personality.get_trait_influence "trainability"
    if r < success_chance then
      let p1 := { p with tricks := p.tricks ++ [trick] }
      let p2 := { p1 with needs := p1.needs.setHappiness (min 10 (p1.needs.happiness + 2)) }
      { p2 with last_interaction := now }
    else
      { p with last_interaction := now }
  else p

/-- Pet.show_tricks only prints; the state is returned unchanged. -/
def Pet.show_tricks (p : Pet) : Pet := p

/-- Pet.time_passes: dead guard; acts only when now1 minus the last
interaction is at least `seconds`; then applies elapsed-time-scaled,
personality-weighted need changes, resets last interaction to now2 (a
second time.time() call), and checks the neglect death condition. -/
def Pet.time_passes (p : Pet) (seconds now1 now2 : ℚ) : Pet :=
  if p.is_alive = false then p
  else
    let time_elapsed := now1 - p.last_interaction
    if time_elapsed ≥ seconds then
      let hunger_increase := pyInt (time_elapsed / (3600 / (3 + 2 * p.personality.get_trait_influence "metabolism")))
      let energy_decrease := pyInt (time_elapsed / (7200 / (5 + 3 * p.personality.get_trait_influence "activity")))
      let happiness_decrease := pyInt (time_elapsed / (10800 / (2 + 1 * p.personality.get_trait_influence "sociability")))
      let n1 := p.needs.setHunger (min 10 (p.needs.hunger + hunger_increase))
      let n2 := n1.setEnergy (max 0 (n1.energy - energy_decrease))
      let n3 := n2.setHappiness (max 0 (n2.happiness - happiness_decrease))
      let p1 := { p with needs := n3, last_interaction := now2 }
      if p1.needs.hunger ≥ 10 ∨ p1.needs.energy ≤ 0 ∨ p1.needs.happiness ≤ 0 then
        { p1 with is_alive := false, death_cause := some DeathCause.neglect }
      else p1
    else p

/-- AdvancedPet state: the inherited Pet state plus health (clamped to
0..100) and the list of active disease names. -/
structure AdvancedPet where
  base : Pet
  health : ℤ
  diseases : List String
deriving DecidableEq

/-- The AdvancedPet health property setter: clamps to 0..100 before
storing, and if the stored value is ≤ 0 while the pet is alive, flips
the liveness flag and records the illness death message. -/
def AdvancedPet.setHealth (s : AdvancedPet) (value : ℤ) : AdvancedPet :=
  let h := max 0 (min 100 value)
  if h ≤ 0 ∧ s.base.is_alive = true then
    { s with health := h
             base := { s.base with is_alive := false, death_cause := some DeathCause.illness } }
  else
    { s with health := h }

/-- Applies a Needs update to the inherited needs record. -/
def AdvancedPet.mapNeeds (s : AdvancedPet) (f : Needs → Needs) : AdvancedPet :=
  { s with base := { s.base with needs := f s.base.needs } }

/-- AdvancedPet.__init__: base constructor, then the health property
setter on the clamped initial health (the setter can already kill the
pet), then an empty disease list. -/
def AdvancedPet.init (name species : String)
    (initial_hunger initial_energy initial_happiness initial_health : ℤ)
    (personality_traits : List (String × ℚ)) (now : ℚ) : AdvancedPet :=
  let b := Pet.init name species initial_hunger initial_energy initial_happiness personality_traits now
  let s0 : AdvancedPet := { base := b, health := 0, diseases := [] }
  s0.setHealth (max 0 (min 100 initial_health))

/-- AdvancedPet.get_status: base status then prints; state unchanged. -/
def AdvancedPet.get_status (s : AdvancedPet) : AdvancedPet :=
  { s with base := Pet.get_status s.base }

/-- AdvancedPet.show_tricks is inherited from Pet; state unchanged. -/
def AdvancedPet.show_tricks (s : AdvancedPet) : AdvancedPet :=
  { s with base := Pet.show_tricks s.base }

/-- AdvancedPet.sleep is inherited from Pet. -/
def AdvancedPet.sleep (s : AdvancedPet) (now : ℚ) : AdvancedPet :=
  { s with base := Pet.sleep s.base now }

/-- AdvancedPet.eat: base eat, then with probability 0.3 (draw `r`) a
constitution-weighted health gain through the health setter.  The
random draw and the health write happen whether or not the pet is
alive. -/
def AdvancedPet.eat (s : AdvancedPet) (now r : ℚ) : AdvancedPet :=
  let s1 : AdvancedPet := { s with base := Pet.eat s.base now }
  if r < 3/10 then
    let health_increase : ℚ := 2 + 1 * s1.base.personality.get_trait_influence "constitution"
    s1.setHealth (min 100 (s1.health + pyInt health_increase))
  else s1

/-- AdvancedPet.play: base play, then if energy < 3, with probability
0.4 (draw `r`) a resilience-weighted health loss through the health
setter. -/
def AdvancedPet.play (s : AdvancedPet) (now r : ℚ) : AdvancedPet :=
  let s1 : AdvancedPet := { s with base := Pet.play s.base now }
  if s1.base.needs.energy < 3 ∧ r < 4/10 then
    let health_decrease : ℚ := 3 - 1 * s1.base.personality.get_trait_influence "resilience"
    s1.setHealth (max 0 (s1.health - pyInt health_decrease))
  else s1

/-- AdvancedPet.train: base train, then if the trick is now known
(case-insensitively), with probability 0.2 (draw `rBonus`) one point of
health through the health setter. -/
def AdvancedPet.train (s : AdvancedPet) (trick : String) (r rBonus now : ℚ) : AdvancedPet :=
  let s1 : AdvancedPet := { s with base := Pet.train s.base trick r now }
  if lowerMem s1.base.tricks trick = true ∧ rBonus < 2/10 then
    s1.setHealth (min 100 (s1.health + 1))
  else s1

/-- AdvancedPet.contract_disease: no liveness guard.  If the disease is
not already present case-insensitively, append it and apply the
one-time need and health penalties (randint draws passed explicitly:
dHunger in 1..3, dEnergy in 1..3, dHappiness in 2..4, dHealth in
5..15). -/
def AdvancedPet.contract_disease (s : AdvancedPet) (disease : String)
    (dHunger dEnergy dHappiness dHealth : ℤ) : AdvancedPet :=
  if lowerMem s.diseases disease = false then
    let s1 : AdvancedPet := { s with diseases := s.diseases ++ [disease] }
    let s2 := s1.mapNeeds (fun n => n.setHunger (min 10 (n.hunger + dHunger)))
    let s3 := s2.mapNeeds (fun n => n.setEnergy (max 0 (n.energy - dEnergy)))
    let s4 := s3.mapNeeds (fun n => n.setHappiness (max 0 (n.happiness - dHappiness)))
    s4.setHealth (max 0 (s4.health - dHealth))
  else s

/-- Python list.remove: drops the first element equal to the argument,
or signals ValueError (none) when no element is exactly equal. -/
def removeFirst (xs : List String) (x : String) : Option (List String) :=
  match xs with
  | [] => none
  | y :: ys => if y = x then some ys else Option.map (fun zs => y :: zs) (removeFirst ys x)

/-- AdvancedPet.treat_disease: no liveness guard.  If the disease is
present case-insensitively, attempt a cure with chance
0.7*cooperativeness (draw `r`): on success list.remove the disease by
exact equality — which raises ValueError when only a differently-cased
entry is present (flag true; the state is unchanged at the raise) —
and add `heal` (randint 5..10) health.  Otherwise state unchanged. -/
def AdvancedPet.treat_disease (s : AdvancedPet) (disease : String) (r : ℚ) (heal : ℤ) :
    AdvancedPet × Bool :=
  if lowerMem s.diseases disease = true then
    let treatment_success_chance : ℚ := (7/10) * s.base.personality.get_trait_influence "cooperativeness"
    if r < treatment_success_chance then
      match removeFirst s.diseases disease with
      | some ds =>
        let s1 : AdvancedPet := { s with diseases := ds }
        (s1.setHealth (min 100 (s1.health + heal)), false)
      | none => (s, true)
    else (s, false)
  else (s, false)

/-- One random draw bundle for the per-disease worsening step of
AdvancedPet.time_passes. -/
structure DiseaseDraw where
  r : ℚ
  dHealth : ℤ
  dHunger : ℤ
  dEnergy : ℤ
  dHappiness : ℤ

/-- Body of the worsening loop: with probability 0.2 the disease
worsens, hitting health (through the setter, which can kill the pet
mid-loop) and the needs. -/
def worsenOne (s : AdvancedPet) (d : DiseaseDraw) : AdvancedPet :=
  if d.r < 2/10 then
    let s1 := s.setHealth (max 0 (s.health - d.dHealth))
    let s2 := s1.mapNeeds (fun n => n.setHunger (min 10 (n.hunger + d.dHunger)))
    let s3 := s2.mapNeeds (fun n => n.setEnergy (max 0 (n.energy - d.dEnergy)))
    s3.mapNeeds (fun n => n.setHappiness (max 0 (n.happiness - d.dHappiness)))
  else s

/-- AdvancedPet.time_passes: base time_passes, then, only if still
alive, iterate over a snapshot of the disease list; draw i of `draws`
feeds iteration i.  The loop body never re-checks liveness, so a
mid-loop death does not stop the remaining iterations. -/
def AdvancedPet.time_passes (s : AdvancedPet) (seconds now1 now2 : ℚ)
    (draws : ℕ → DiseaseDraw) : AdvancedPet :=
  let s1 : AdvancedPet := { s with base := Pet.time_passes s.base seconds now1 now2 }
  if s1.base.is_alive = true then
    (List.range s1.diseases.length).foldl (fun acc i => worsenOne acc (draws i)) s1
  else s1

/-- One public operation on a base Pet, with its wall-clock reading and
random draw as explicit data. -/
inductive PetOp where
  | eat (now : ℚ)
  | sleep (now : ℚ)
  | play (now : ℚ)
  | train (trick : String) (r now : ℚ)
  | show_tricks
  | get_status
  | time_passes (seconds now1 now2 : ℚ)

/-- Interpretation of one base-Pet operation. -/
def Pet.step (p : Pet) : PetOp → Pet
  | PetOp.eat now => p.eat now
  | PetOp.sleep now => p.sleep now
  | PetOp.play now => p.play now
  | PetOp.train trick r now => p.train trick r now
  | PetOp.show_tricks => p.show_tricks
  | PetOp.get_status => p.get_status
  | PetOp.time_passes seconds now1 now2 => p.time_passes seconds now1 now2

/-- Runs a sequence of base-Pet operations. -/
def Pet.run (p : Pet) (ops : List PetOp) : Pet :=
  ops.foldl Pet.step p

/-- One public operation on an AdvancedPet. -/
inductive AdvancedPetOp where
  | eat (now r : ℚ)
  | sleep (now : ℚ)
  | play (now r : ℚ)
  | train (trick : String) (r rBonus now : ℚ)
  | show_tricks
  | get_status
  | time_passes (seconds now1 now2 : ℚ) (draws : ℕ → DiseaseDraw)
  | contract_disease (disease : String) (dHunger dEnergy dHappiness dHealth : ℤ)
  | treat_disease (disease : String) (r : ℚ) (heal : ℤ)

/-- Interpretation of one AdvancedPet operation (for treat_disease, the
state at return or at the ValueError raise point). -/
def AdvancedPet.step (s : AdvancedPet) : AdvancedPetOp → AdvancedPet
  | AdvancedPetOp.eat now r => s.eat now r
  | AdvancedPetOp.sleep now => s.sleep now
  | AdvancedPetOp.play now r => s.play now r
  | AdvancedPetOp.train trick r rBonus now => s.train trick r rBonus now
  | AdvancedPetOp.show_tricks => s.show_tricks
  | AdvancedPetOp.get_status => s.get_status
  | AdvancedPetOp.time_passes seconds now1 now2 draws => s.time_passes seconds now1 now2 draws
  | AdvancedPetOp.contract_disease d a b c e => s.contract_disease d a b c e
  | AdvancedPetOp.treat_disease d r heal => (s.treat_disease d r heal).1

/-- Runs a sequence of AdvancedPet operations. -/
def AdvancedPet.run (s : AdvancedPet) (ops : List AdvancedPetOp) : AdvancedPet :=
  ops.foldl AdvancedPet.step s

/-- The Needs invariant: every component within 0..10. -/
def Needs.inB (n : Needs) : Prop :=
  0 ≤ n.hunger ∧ n.hunger ≤ 10 ∧ 0 ≤ n.energy ∧ n.energy ≤ 10 ∧
    0 ≤ n.happiness ∧ n.happiness ≤ 10

/-- The Personality invariant: every stored weight within 0..1. -/
def Personality.wf (p : Personality) : Prop :=
  ∀ q ∈ p.traits, 0 ≤ q.2 ∧ q.2 ≤ 1

/-- The Pet invariant: needs in bounds and personality well-formed. -/
def Pet.inv (p : Pet) : Prop := p.needs.inB ∧ p.personality.wf

/-- The AdvancedPet invariant: the Pet invariant plus health within
0..100. -/
def AdvancedPet.inv (s : AdvancedPet) : Prop :=
  s.base.inv ∧ 0 ≤ s.health ∧ s.health ≤ 100

lemma Needs.init_inB (a b c : ℤ) : (Needs.init a b c).inB := by
  simp only [Needs.init, Needs.inB]
  omega

lemma Needs.setHunger_inB (n : Needs) (v : ℤ) (h : n.inB) : (n.setHunger v).inB := by
  simp only [Needs.setHunger, Needs.inB] at h ⊢
  omega

lemma Needs.setEnergy_inB (n : Needs) (v : ℤ) (h : n.inB) : (n.setEnergy v).inB := by
  simp only [Needs.setEnergy, Needs.inB] at h ⊢
  omega

lemma Needs.setHappiness_inB (n : Needs) (v : ℤ) (h : n.inB) : (n.setHappiness v).inB := by
  simp only [Needs.setHappiness, Needs.inB] at h ⊢
  omega

lemma Personality.init_wf (name : String) (ts : List (String × ℚ)) :
    (Personality.init name ts).wf := by
  intro q hq
  simp only [Personality.init, List.mem_map] at hq
  obtain ⟨a, -, rfl⟩ := hq
  constructor
  · exact le_max_left 0 _
  · exact max_le (by norm_num) (min_le_left 1 _)

lemma Pet.eat_dead (p : Pet) (now : ℚ) (h : p.is_alive = false) : p.eat now = p := by
  simp [Pet.eat, h]

lemma Pet.sleep_dead (p : Pet) (now : ℚ) (h : p.is_alive = false) : p.sleep now = p := by
  simp [Pet.sleep, h]

lemma Pet.play_dead (p : Pet) (now : ℚ) (h : p.is_alive = false) : p.play now = p := by
  simp [Pet.play, h]

lemma Pet.train_dead (p : Pet) (trick : String) (r now : ℚ) (h : p.is_alive = false) :
    p.train trick r now = p := by
  simp [Pet.train, h]

lemma Pet.time_passes_dead (p : Pet) (seconds now1 now2 : ℚ) (h : p.is_alive = false) :
    p.time_passes seconds now1 now2 = p := by
  simp [Pet.time_passes, h]

lemma Pet.step_dead (p : Pet) (op : PetOp) (h : p.is_alive = false) : p.step op = p := by
  cases op <;>
    simp [Pet.step, Pet.get_status, Pet.show_tricks, Pet.eat_dead, Pet.sleep_dead,
      Pet.play_dead, Pet.train_dead, Pet.time_passes_dead, h]

lemma Pet.eat_inv (p : Pet) (now : ℚ) (h : p.inv) : (p.eat now).inv := by
  simp only [Pet.eat]
  split
  · exact h
  · exact ⟨Needs.setHappiness_inB _ _ (Needs.setHunger_inB _ _ h.1), h.2⟩

lemma Pet.sleep_inv (p : Pet) (now : ℚ) (h : p.inv) : (p.sleep now).inv := by
  simp only [Pet.sleep]
  split
  · exact h
  · exact ⟨Needs.setEnergy_inB _ _ h.1, h.2⟩

lemma Pet.play_inv (p : Pet) (now : ℚ) (h : p.inv) : (p.play now).inv := by
  simp only [Pet.play]
  split
  · exact h
  · exact ⟨Needs.setHunger_inB _ _ (Needs.setHappiness_inB _ _ (Needs.setEnergy_inB _ _ h.1)), h.2⟩

lemma Pet.train_inv (p : Pet) (trick : String) (r now : ℚ) (h : p.inv) :
    (p.train trick r now).inv := by
  simp only [Pet.train]
  split
  · exact h
  · split
    · split
      · exact ⟨Needs.setHappiness_inB _ _ h.1, h.2⟩
      · exact h
    · exact h

lemma Pet.time_passes_inv (p : Pet) (seconds now1 now2 : ℚ) (h : p.inv) :
    (p.time_passes seconds now1 now2).inv := by
  simp only [Pet.time_passes]
  split
  · exact h
  · split
    · split
      · exact ⟨Needs.setHappiness_inB _ _ (Needs.setEnergy_inB _ _ (Needs.setHunger_inB _ _ h.1)), h.2⟩
      · exact ⟨Needs.setHappiness_inB _ _ (Needs.setEnergy_inB _ _ (Needs.setHunger_inB _ _ h.1)), h.2⟩
    · exact h

lemma Pet.step_inv (p : Pet) (op : PetOp) (h : p.inv) : (p.step op).inv := by
  cases op with
  | eat now => exact p.eat_inv now h
  | sleep now => exact p.sleep_inv now h
  | play now => exact p.play_inv now h
  | train trick r now => exact p.train_inv trick r now h
  | show_tricks => exact h
  | get_status => exact h
  | time_passes seconds now1 now2 => exact p.time_passes_inv seconds now1 now2 h

lemma Pet.run_inv (p : Pet) (ops : List PetOp) (h : p.inv) : (p.run ops).inv := by
  induction ops generalizing p with
  | nil => exact h
  | cons op rest ih => exact ih _ (p.step_inv op h)

lemma Pet.init_inv (name species : String) (ih ie iha : ℤ) (ts : List (String × ℚ)) (now : ℚ) :
    (Pet.init name species ih ie iha ts now).inv :=
  ⟨Needs.init_inB ih ie iha, Personality.init_wf _ ts⟩

lemma Pet.run_dead (p : Pet) (ops : List PetOp) (h : p.is_alive = false) :
    (p.run ops).is_alive = false := by
  induction ops generalizing p with
  | nil => exact h
  | cons op rest ih =>
    show ((p.step op).run rest).is_alive = false
    rw [Pet.step_dead p op h]
    exact ih p h

lemma AdvancedPet.setHealth_inv (s : AdvancedPet) (v : ℤ) (h : s.base.inv) :
    (s.setHealth v).inv := by
  simp only [AdvancedPet.setHealth]
  split
  · refine ⟨⟨h.1, h.2⟩, ?_, ?_⟩ <;> dsimp only <;> omega
  · refine ⟨⟨h.1, h.2⟩, ?_, ?_⟩ <;> dsimp only <;> omega

lemma AdvancedPet.setHealth_not_alive (s : AdvancedPet) (v : ℤ)
    (h : s.base.is_alive = false) : (s.setHealth v).base.is_alive = false := by
  simp only [AdvancedPet.setHealth]
  split
  · rfl
  · exact h

lemma AdvancedPet.eat_keeps_inv (s : AdvancedPet) (now r : ℚ) (h : s.inv) : (s.eat now r).inv := by
  simp only [AdvancedPet.eat]
  split
  · exact AdvancedPet.setHealth_inv _ _ (Pet.eat_inv _ _ h.1)
  · exact ⟨Pet.eat_inv _ _ h.1, h.2.1, h.2.2⟩

lemma AdvancedPet.sleep_keeps_inv (s : AdvancedPet) (now : ℚ) (h : s.inv) : (s.sleep now).inv :=
  ⟨Pet.sleep_inv _ _ h.1, h.2.1, h.2.2⟩

lemma AdvancedPet.play_keeps_inv (s : AdvancedPet) (now r : ℚ) (h : s.inv) : (s.play now r).inv := by
  simp only [AdvancedPet.play]
  split
  · exact AdvancedPet.setHealth_inv _ _ (Pet.play_inv _ _ h.1)
  · exact ⟨Pet.play_inv _ _ h.1, h.2.1, h.2.2⟩

lemma AdvancedPet.train_keeps_inv (s : AdvancedPet) (trick : String) (r rBonus now : ℚ)
    (h : s.inv) : (s.train trick r rBonus now).inv := by
  simp only [AdvancedPet.train]
  split
  · exact AdvancedPet.setHealth_inv _ _ (Pet.train_inv _ _ _ _ h.1)
  · exact ⟨Pet.train_inv _ _ _ _ h.1, h.2.1, h.2.2⟩

lemma AdvancedPet.contract_disease_keeps_inv (s : AdvancedPet) (d : String) (a b c e : ℤ)
    (h : s.inv) : (s.contract_disease d a b c e).inv := by
  simp only [AdvancedPet.contract_disease, AdvancedPet.mapNeeds]
  split
  · exact AdvancedPet.setHealth_inv _ _
      ⟨Needs.setHappiness_inB _ _ (Needs.setEnergy_inB _ _ (Needs.setHunger_inB _ _ h.1.1)), h.1.2⟩
  · exact h

lemma AdvancedPet.treat_disease_keeps_inv (s : AdvancedPet) (d : String) (r : ℚ) (heal : ℤ)
    (h : s.inv) : ((s.treat_disease d r heal).1).inv := by
  simp only [AdvancedPet.treat_disease]
  split_ifs
  · cases hrem : removeFirst s.diseases d with
    | some ds => simp only [hrem]; exact AdvancedPet.setHealth_inv _ _ h.1
    | none => simp only [hrem]; exact h
  · exact h
  · exact h

lemma worsenOne_inv (s : AdvancedPet) (d : DiseaseDraw) (h : s.inv) : (worsenOne s d).inv := by
  simp only [worsenOne, AdvancedPet.mapNeeds]
  split
  · have h1 := AdvancedPet.setHealth_inv s (max 0 (s.health - d.dHealth)) h.1
    exact ⟨⟨Needs.setHappiness_inB _ _ (Needs.setEnergy_inB _ _ (Needs.setHunger_inB _ _ h1.1.1)), h1.1.2⟩,
      h1.2.1, h1.2.2⟩
  · exact h

lemma worsenFold_inv (l : List ℕ) (draws : ℕ → DiseaseDraw) (s : AdvancedPet) (h : s.inv) :
    (l.foldl (fun acc i => worsenOne acc (draws i)) s).inv := by
  induction l generalizing s with
  | nil => exact h
  | cons a t ih => exact ih _ (worsenOne_inv _ _ h)

lemma AdvancedPet.time_passes_keeps_inv (s : AdvancedPet) (seconds now1 now2 : ℚ)
    (draws : ℕ → DiseaseDraw) (h : s.inv) : (s.time_passes seconds now1 now2 draws).inv := by
  simp only [AdvancedPet.time_passes]
  split
  · exact worsenFold_inv _ _ _ ⟨Pet.time_passes_inv _ _ _ _ h.1, h.2.1, h.2.2⟩
  · exact ⟨Pet.time_passes_inv _ _ _ _ h.1, h.2.1, h.2.2⟩

lemma AdvancedPet.step_keeps_inv (s : AdvancedPet) (op : AdvancedPetOp) (h : s.inv) :
    (s.step op).inv := by
  cases op with
  | eat now r => exact AdvancedPet.eat_keeps_inv s now r h
  | sleep now => exact AdvancedPet.sleep_keeps_inv s now h
  | play now r => exact AdvancedPet.play_keeps_inv s now r h
  | train trick r rBonus now => exact AdvancedPet.train_keeps_inv s trick r rBonus now h
  | show_tricks => exact h
  | get_status => exact h
  | time_passes seconds now1 now2 draws => exact AdvancedPet.time_passes_keeps_inv s seconds now1 now2 draws h
  | contract_disease d a b c e => exact AdvancedPet.contract_disease_keeps_inv s d a b c e h
  | treat_disease d r heal => exact AdvancedPet.treat_disease_keeps_inv s d r heal h

lemma AdvancedPet.run_keeps_inv (s : AdvancedPet) (ops : List AdvancedPetOp) (h : s.inv) :
    (s.run ops).inv := by
  induction ops generalizing s with
  | nil => exact h
  | cons op rest ih => exact ih _ (AdvancedPet.step_keeps_inv s op h)

lemma AdvancedPet.init_keeps_inv (name species : String) (ih ie iha ihl : ℤ)
    (ts : List (String × ℚ)) (now : ℚ) :
    (AdvancedPet.init name species ih ie iha ihl ts now).inv := by
  simp only [AdvancedPet.init]
  exact AdvancedPet.setHealth_inv _ _ (Pet.init_inv name species ih ie iha ts now)

lemma AdvancedPet.eat_not_alive (s : AdvancedPet) (now r : ℚ)
    (h : s.base.is_alive = false) : (s.eat now r).base.is_alive = false := by
  simp only [AdvancedPet.eat, Pet.eat_dead _ _ h]
  split
  · exact AdvancedPet.setHealth_not_alive _ _ h
  · exact h

lemma AdvancedPet.play_not_alive (s : AdvancedPet) (now r : ℚ)
    (h : s.base.is_alive = false) : (s.play now r).base.is_alive = false := by
  simp only [AdvancedPet.play, Pet.play_dead _ _ h]
  split
  · exact AdvancedPet.setHealth_not_alive _ _ h
  · exact h

lemma AdvancedPet.train_not_alive (s : AdvancedPet) (trick : String) (r rBonus now : ℚ)
    (h : s.base.is_alive = false) : (s.train trick r rBonus now).base.is_alive = false := by
  simp only [AdvancedPet.train, Pet.train_dead _ _ _ _ h]
  split
  · exact AdvancedPet.setHealth_not_alive _ _ h
  · exact h

lemma AdvancedPet.contract_disease_not_alive (s : AdvancedPet) (d : String) (a b c e : ℤ)
    (h : s.base.is_alive = false) : (s.contract_disease d a b c e).base.is_alive = false := by
  simp only [AdvancedPet.contract_disease, AdvancedPet.mapNeeds]
  split
  · exact AdvancedPet.setHealth_not_alive _ _ h
  · exact h

lemma AdvancedPet.treat_disease_not_alive (s : AdvancedPet) (d : String) (r : ℚ) (heal : ℤ)
    (h : s.base.is_alive = false) : ((s.treat_disease d r heal).1).base.is_alive = false := by
  simp only [AdvancedPet.treat_disease]
  split_ifs
  · cases hrem : removeFirst s.diseases d with
    | some ds => simp only [hrem]; exact AdvancedPet.setHealth_not_alive _ _ h
    | none => simp only [hrem]; exact h
  · exact h
  · exact h

lemma worsenOne_not_alive (s : AdvancedPet) (d : DiseaseDraw)
    (h : s.base.is_alive = false) : (worsenOne s d).base.is_alive = false := by
  simp only [worsenOne, AdvancedPet.mapNeeds]
  split
  · exact AdvancedPet.setHealth_not_alive _ _ h
  · exact h

lemma worsenFold_not_alive (l : List ℕ) (draws : ℕ → DiseaseDraw) (s : AdvancedPet)
    (h : s.base.is_alive = false) :
    ((l.foldl (fun acc i => worsenOne acc (draws i)) s)).base.is_alive = false := by
  induction l generalizing s with
  | nil => exact h
  | cons a t ih => exact ih _ (worsenOne_not_alive _ _ h)

lemma AdvancedPet.time_passes_not_alive (s : AdvancedPet) (seconds now1 now2 : ℚ)
    (draws : ℕ → DiseaseDraw) (h : s.base.is_alive = false) :
    (s.time_passes seconds now1 now2 draws).base.is_alive = false := by
  simp only [AdvancedPet.time_passes, Pet.time_passes_dead _ _ _ _ h]
  split
  · exact worsenFold_not_alive _ _ _ h
  · exact h

lemma AdvancedPet.step_not_alive (s : AdvancedPet) (op : AdvancedPetOp)
    (h : s.base.is_alive = false) : (s.step op).base.is_alive = false := by
  cases op with
  | eat now r => exact s.eat_not_alive now r h
  | sleep now =>
    simp only [AdvancedPet.step, AdvancedPet.sleep, Pet.sleep_dead _ _ h]
    exact h
  | play now r => exact s.play_not_alive now r h
  | train trick r rBonus now => exact s.train_not_alive trick r rBonus now h
  | show_tricks => exact h
  | get_status => exact h
  | time_passes seconds now1 now2 draws => exact s.time_passes_not_alive seconds now1 now2 draws h
  | contract_disease d a b c e => exact s.contract_disease_not_alive d a b c e h
  | treat_disease d r heal => exact s.treat_disease_not_alive d r heal h

lemma AdvancedPet.run_not_alive (s : AdvancedPet) (ops : List AdvancedPetOp)
    (h : s.base.is_alive = false) : (s.run ops).base.is_alive = false := by
  induction ops generalizing s with
  | nil => exact h
  | cons op rest ih => exact ih _ (s.step_not_alive op h)

/-- A concrete dead base pet used for closed instances. -/
def deadPet : Pet :=
  { name := "Rex"
    species := "Dog"
    needs := { hunger := 5, energy := 5, happiness := 5 }
    tricks := ["sit"]
    personality := { name := "P", traits := [] }
    is_alive := false
    last_interaction := 0
    death_cause := some DeathCause.neglect }

/-- A concrete dead advanced pet (dead by neglect, health 50, one
disease, one trick, needs strictly inside bounds except energy 2). -/
def deadAdvPet : AdvancedPet :=
  { base :=
      { name := "Rex"
        species := "Dog"
        needs := { hunger := 5, energy := 2, happiness := 5 }
        tricks := ["sit"]
        personality :=
          { name := "P"
            traits := [("cooperativeness", 1), ("constitution", 1), ("resilience", 0)] }
        is_alive := false
        last_interaction := 0
        death_cause := some DeathCause.neglect }
    health := 50
    diseases := ["flu"] }

/-- A concrete live advanced pet with low health and needs strictly
inside bounds. -/
def liveAdvPet : AdvancedPet :=
  { base :=
      { name := "Mia"
        species := "Cat"
        needs := { hunger := 5, energy := 5, happiness := 5 }
        tricks := []
        personality := { name := "P", traits := [] }
        is_alive := true
        last_interaction := 0
        death_cause := none }
    health := 10
    diseases := [] }

/-- A concrete live base pet with maximal decay traits. -/
def clockPet : Pet :=
  { name := "Momo"
    species := "Hamster"
    needs := { hunger := 5, energy := 5, happiness := 5 }
    tricks := []
    personality :=
      { name := "P", traits := [("metabolism", 1), ("activity", 1), ("sociability", 1)] }
    is_alive := true
    last_interaction := 0
    death_cause := none }

/-- A concrete freshly constructed live base pet with no traits. -/
def freshPet : Pet :=
  { name := "Kiki"
    species := "Parrot"
    needs := { hunger := 5, energy := 7, happiness := 5 }
    tricks := []
    personality := { name := "P", traits := [] }
    is_alive := true
    last_interaction := 0
    death_cause := none }

/-- A concrete live advanced pet carrying the disease "Flu" (upper
case) and a fully cooperative personality. -/
def sickAdvPet : AdvancedPet :=
  { base :=
      { name := "Nox"
        species := "Ferret"
        needs := { hunger := 5, energy := 5, happiness := 5 }
        tricks := []
        personality := { name := "P", traits := [("cooperativeness", 1)] }
        is_alive := true
        last_interaction := 0
        death_cause := none }
    health := 80
    diseases := ["Flu"] }

/-- Claim C3: starting from any construction of a Pet or an
AdvancedPet, every sequence of public operations keeps hunger, energy
and happiness in 0..10, every stored personality weight in 0..1, and
the AdvancedPet health in 0..100. -/
theorem c3_invariants_hold :
    (∀ (name species : String) (ih ie iha : ℤ) (ts : List (String × ℚ)) (now : ℚ)
      (ops : List PetOp), (Pet.run (Pet.init name species ih ie iha ts now) ops).inv) ∧
    (∀ (name species : String) (ih ie iha ihl : ℤ) (ts : List (String × ℚ)) (now : ℚ)
      (ops : List AdvancedPetOp),
      (AdvancedPet.run (AdvancedPet.init name species ih ie iha ihl ts now) ops).inv) :=
  ⟨fun name species ih ie iha ts now ops =>
    Pet.run_inv _ ops (Pet.init_inv name species ih ie iha ts now),
   fun name species ih ie iha ihl ts now ops =>
    AdvancedPet.run_keeps_inv _ ops (AdvancedPet.init_keeps_inv name species ih ie iha ihl ts now)⟩

/-- Claim C6: once a Pet or AdvancedPet is dead, no sequence of public
operations ever makes is_alive true again. -/
theorem c6_death_is_permanent :
    (∀ (p : Pet) (ops : List PetOp), p.is_alive = false → (p.run ops).is_alive = false) ∧
    (∀ (s : AdvancedPet) (ops : List AdvancedPetOp), s.base.is_alive = false →
      (s.run ops).base.is_alive = false) :=
  ⟨fun p ops h => Pet.run_dead p ops h, fun s ops h => AdvancedPet.run_not_alive s ops h⟩

/-- Witness for C6: a concrete dead pet and dead advanced pet stay dead
across concrete operation sequences. -/
theorem c6_death_is_permanent_witness :
    (Pet.run deadPet [PetOp.eat 1, PetOp.time_passes 0 5 6]).is_alive = false ∧
    (AdvancedPet.run deadAdvPet [AdvancedPetOp.contract_disease "pox" 1 1 2 5,
      AdvancedPetOp.treat_disease "flu" 0 5]).base.is_alive = false :=
  ⟨c6_death_is_permanent.1 deadPet _ rfl, c6_death_is_permanent.2 deadAdvPet _ rfl⟩

/-- Claim C9: show_tricks and get_status are pure observers — iterating
either of them any number of times on any Pet or AdvancedPet, alive or
dead, leaves the state unchanged. -/
theorem c9_observers_pure (n : ℕ) (p : Pet) (s : AdvancedPet) :
    Pet.get_status^[n] p = p ∧ Pet.show_tricks^[n] p = p ∧
    AdvancedPet.get_status^[n] s = s ∧ AdvancedPet.show_tricks^[n] s = s :=
  ⟨Function.iterate_fixed rfl n, Function.iterate_fixed rfl n,
   Function.iterate_fixed rfl n, Function.iterate_fixed rfl n⟩

/-- Claim C10: constructing an AdvancedPet with initial_health ≤ 0
yields, already at the end of construction, health 0, a dead pet, and
the illness death message. -/
theorem c10_dead_on_construction (name species : String) (ih ie iha ihl : ℤ)
    (ts : List (String × ℚ)) (now : ℚ) (h : ihl ≤ 0) :
    (AdvancedPet.init name species ih ie iha ihl ts now).health = 0 ∧
    (AdvancedPet.init name species ih ie iha ihl ts now).base.is_alive = false ∧
    (AdvancedPet.init name species ih ie iha ihl ts now).base.death_cause =
      some DeathCause.illness := by
  simp only [AdvancedPet.init, AdvancedPet.setHealth]
  rw [if_pos ⟨by omega, rfl⟩]
  exact ⟨by dsimp only; omega, rfl, rfl⟩

/-- Witness for C10: a concrete construction with initial_health -3 is
dead at birth with health 0 and the illness message. -/
theorem c10_dead_on_construction_witness :
    (AdvancedPet.init "Rex" "Dog" 5 5 5 (-3) [] 0).health = 0 ∧
    (AdvancedPet.init "Rex" "Dog" 5 5 5 (-3) [] 0).base.is_alive = false ∧
    (AdvancedPet.init "Rex" "Dog" 5 5 5 (-3) [] 0).base.death_cause =
      some DeathCause.illness :=
  c10_dead_on_construction "Rex" "Dog" 5 5 5 (-3) [] 0 (by norm_num)

/-- Claim C4: on a live AdvancedPet, any health write with a value ≤ 0
— the single write path every health mutation goes through — clamps
health to 0, immediately flips is_alive to false and records the
illness message, with no condition on the needs; in particular
contract_disease kills when its health damage reaches current
health. -/
theorem c4_health_write_kills (s : AdvancedPet) (v : ℤ)
    (halive : s.base.is_alive = true) (hv : v ≤ 0) :
    (s.setHealth v).base.is_alive = false ∧
    (s.setHealth v).health = 0 ∧
    (s.setHealth v).base.death_cause = some DeathCause.illness ∧
    (∀ (d : String) (a b c e : ℤ), lowerMem s.diseases d = false → s.health ≤ e →
      (s.contract_disease d a b c e).base.is_alive = false ∧
      (s.contract_disease d a b c e).base.death_cause = some DeathCause.illness) := by
  refine ⟨?_, ?_, ?_, ?_⟩
  · simp only [AdvancedPet.setHealth]
    rw [if_pos ⟨by omega, halive⟩]
  · simp only [AdvancedPet.setHealth]
    rw [if_pos ⟨by omega, halive⟩]
    dsimp only
    omega
  · simp only [AdvancedPet.setHealth]
    rw [if_pos ⟨by omega, halive⟩]
  · intro d a b c e hmem hdmg
    simp only [AdvancedPet.contract_disease, AdvancedPet.mapNeeds, AdvancedPet.setHealth]
    rw [if_pos hmem, if_pos ⟨by omega, halive⟩]
    exact ⟨rfl, rfl⟩

/-- Witness for C4: the concrete live advanced pet with all needs
strictly inside bounds dies with the illness message on a health write
of -5, and on contracting a disease whose health damage is 15. -/
theorem c4_health_write_kills_witness :
    (liveAdvPet.setHealth (-5)).base.is_alive = false ∧
    (liveAdvPet.setHealth (-5)).health = 0 ∧
    (liveAdvPet.setHealth (-5)).base.death_cause = some DeathCause.illness ∧
    (liveAdvPet.contract_disease "flu" 1 1 2 15).base.is_alive = false := by
  have h := c4_health_write_kills liveAdvPet (-5) rfl (by decide)
  exact ⟨h.1, h.2.1, h.2.2.1, (h.2.2.2 "flu" 1 1 2 15 (by decide) (by decide)).1⟩

/-- Claim C5: on a live Pet, time_passes acts only when the elapsed
time since the last interaction (now1 minus the stored timestamp) is at
least the seconds argument; when the gate fails nothing changes, and
when it acts the need deltas are truncations of elapsed time divided by
the personality-weighted periods — computed from the elapsed time, not
the seconds argument — and the last interaction is reset to the second
clock reading. -/
theorem c5_time_passes_gate (p : Pet) (seconds now1 now2 : ℚ) (halive : p.is_alive = true) :
    (now1 - p.last_interaction < seconds → p.time_passes seconds now1 now2 = p) ∧
    (seconds ≤ now1 - p.last_interaction →
      (p.time_passes seconds now1 now2).needs.hunger =
        max 0 (min 10 (p.needs.hunger +
          pyInt ((now1 - p.last_interaction) /
            (3600 / (3 + 2 * p.personality.get_trait_influence "metabolism"))))) ∧
      (p.time_passes seconds now1 now2).needs.energy =
        max 0 (min 10 (p.needs.energy -
          pyInt ((now1 - p.last_interaction) /
            (7200 / (5 + 3 * p.personality.get_trait_influence "activity"))))) ∧
      (p.time_passes seconds now1 now2).needs.happiness =
        max 0 (min 10 (p.needs.happiness -
          pyInt ((now1 - p.last_interaction) /
            (10800 / (2 + 1 * p.personality.get_trait_influence "sociability"))))) ∧
      (p.time_passes seconds now1 now2).last_interaction = now2) := by
  constructor
  · intro hlt
    simp only [Pet.time_passes]
    rw [if_neg (by simp [halive]), if_neg (not_le.mpr hlt)]
  · intro hge
    simp only [Pet.time_passes]
    rw [if_neg (by simp [halive]), if_pos hge]
    refine ⟨?_, ?_, ?_, ?_⟩
    · split <;> (dsimp only [Needs.setHunger, Needs.setEnergy, Needs.setHappiness]; omega)
    · split <;> (dsimp only [Needs.setHunger, Needs.setEnergy, Needs.setHappiness]; omega)
    · split <;> (dsimp only [Needs.setHunger, Needs.setEnergy, Needs.setHappiness]; omega)
    · split <;> rfl

lemma pyInt_eq_of (q : ℚ) (z : ℤ) (h0 : 0 ≤ q) (h1 : (z : ℚ) ≤ q) (h2 : q < z + 1) :
    pyInt q = z := by
  unfold pyInt
  rw [if_pos h0]
  exact Int.floor_eq_iff.mpr ⟨h1, h2⟩

/-- Witness for C5: the concrete pet with maximal decay traits, last
interaction at 0, time_passes with threshold 600 at clock reading 720:
hunger rises by 1 (period 720s), energy and happiness are unchanged
(truncation of 720/900 and 720/3600), and the timestamp becomes the
second clock reading 730. -/
theorem c5_time_passes_gate_witness :
    (clockPet.time_passes 600 720 730).needs.hunger = 6 ∧
    (clockPet.time_passes 600 720 730).needs.energy = 5 ∧
    (clockPet.time_passes 600 720 730).needs.happiness = 5 ∧
    (clockPet.time_passes 600 720 730).last_interaction = 730 := by
  obtain ⟨h1, h2, h3, h4⟩ :=
    (c5_time_passes_gate clockPet 600 720 730 rfl).2
      (by rw [show clockPet.last_interaction = 0 from rfl]; norm_num)
  have hm : clockPet.personality.get_trait_influence "metabolism" = 1 := rfl
  have ha : clockPet.personality.get_trait_influence "activity" = 1 := rfl
  have hs : clockPet.personality.get_trait_influence "sociability" = 1 := rfl
  have hl : clockPet.last_interaction = 0 := rfl
  have e1 : pyInt (((720 : ℚ) - clockPet.last_interaction) /
      (3600 / (3 + 2 * clockPet.personality.get_trait_influence "metabolism"))) = 1 := by
    rw [hm, hl]
    exact pyInt_eq_of _ 1 (by norm_num) (by norm_num) (by norm_num)
  have e2 : pyInt (((720 : ℚ) - clockPet.last_interaction) /
      (7200 / (5 + 3 * clockPet.personality.get_trait_influence "activity"))) = 0 := by
    rw [ha, hl]
    exact pyInt_eq_of _ 0 (by norm_num) (by norm_num) (by norm_num)
  have e3 : pyInt (((720 : ℚ) - clockPet.last_interaction) /
      (10800 / (2 + 1 * clockPet.personality.get_trait_influence "sociability"))) = 0 := by
    rw [hs, hl]
    exact pyInt_eq_of _ 0 (by norm_num) (by norm_num) (by norm_num)
  refine ⟨?_, ?_, ?_, h4⟩
  · rw [h1, e1, show clockPet.needs.hunger = 5 from rfl]
    decide
  · rw [h2, e2, show clockPet.needs.energy = 5 from rfl]
    decide
  · rw [h3, e3, show clockPet.needs.happiness = 5 from rfl]
    decide

lemma Pet.eat_fields (q : Pet) (now : ℚ) (hq : q.is_alive = true) :
    (q.eat now).needs.hunger =
      max 0 (min 10 (max 0 (q.needs.hunger -
        pyInt (3 - 1 * q.personality.get_trait_influence "pickiness")))) ∧
    (q.eat now).needs.happiness =
      max 0 (min 10 (q.needs.happiness +
        pyInt (1 + (5/10) * q.personality.get_trait_influence "joyfulness"))) := by
  simp only [Pet.eat]
  rw [if_neg (by simp [hq])]
  constructor
  · dsimp only [Needs.setHunger, Needs.setHappiness]
  · dsimp only [Needs.setHunger, Needs.setHappiness]
    omega

/-- A concrete live pet whose personality stores pickiness 0 and
joyfulness 0. -/
def plainPet : Pet :=
  { name := "Tofu"
    species := "Rabbit"
    needs := { hunger := 5, energy := 7, happiness := 5 }
    tricks := []
    personality := { name := "P", traits := [("pickiness", 0), ("joyfulness", 0)] }
    is_alive := true
    last_interaction := 0
    death_cause := none }

/-- Claim C8: on a live pet with pickiness 0 and joyfulness 0, eat
lowers hunger by exactly 3 saturating at 0 and raises happiness by
exactly 1 saturating at 10; in general the deltas are the truncations
of 3 - 1*pickiness and 1 + 0.5*joyfulness, and an absent trait has
influence 0.5. -/
theorem c8_eat_deltas (p : Pet) (now : ℚ) (halive : p.is_alive = true) (hb : p.needs.inB)
    (hp : p.personality.get_trait_influence "pickiness" = 0)
    (hj : p.personality.get_trait_influence "joyfulness" = 0) :
    (p.eat now).needs.hunger = max 0 (p.needs.hunger - 3) ∧
    (p.eat now).needs.happiness = min 10 (p.needs.happiness + 1) ∧
    (∀ q : Pet, q.is_alive = true →
      (q.eat now).needs.hunger =
        max 0 (min 10 (max 0 (q.needs.hunger -
          pyInt (3 - 1 * q.personality.get_trait_influence "pickiness")))) ∧
      (q.eat now).needs.happiness =
        max 0 (min 10 (q.needs.happiness +
          pyInt (1 + (5/10) * q.personality.get_trait_influence "joyfulness")))) ∧
    (∀ (P : Personality) (t : String), P.traits.find? (fun q => q.1 = t) = none →
      P.get_trait_influence t = 1/2) := by
  have hpi : pyInt (3 - 1 * p.personality.get_trait_influence "pickiness") = 3 := by
    rw [hp]
    exact pyInt_eq_of _ 3 (by norm_num) (by norm_num) (by norm_num)
  have hji : pyInt (1 + (5/10) * p.personality.get_trait_influence "joyfulness") = 1 := by
    rw [hj]
    exact pyInt_eq_of _ 1 (by norm_num) (by norm_num) (by norm_num)
  have hf := Pet.eat_fields p now halive
  obtain ⟨hb1, hb2, hb3, hb4, hb5, hb6⟩ := hb
  refine ⟨?_, ?_, fun q hq => Pet.eat_fields q now hq, fun P t h => ?_⟩
  · rw [hf.1, hpi]
    omega
  · rw [hf.2, hji]
    omega
  · unfold Personality.get_trait_influence
    rw [h]

/-- Witness for C8: the concrete pickiness-0, joyfulness-0 pet at
hunger 5 and happiness 5 ends at hunger 2 and happiness 6 after one
eat. -/
theorem c8_eat_deltas_witness :
    (plainPet.eat 1).needs.hunger = 2 ∧ (plainPet.eat 1).needs.happiness = 6 := by
  have h := c8_eat_deltas plainPet 1 rfl (by unfold Needs.inB; decide) rfl rfl
  constructor
  · rw [h.1]
    decide
  · rw [h.2.1]
    decide

lemma Pet.train_success (p : Pet) (t : String) (r now : ℚ) (halive : p.is_alive = true)
    (hnew : lowerMem p.tricks t = false)
    (hsucc : r < 6/10 + (3/10) * p.personality.get_trait_influence "trainability") :
    p.train t r now =
      { p with tricks := p.tricks ++ [t]
               needs := p.needs.setHappiness (min 10 (p.needs.happiness + 2))
               last_interaction := now } := by
  simp only [Pet.train]
  rw [if_neg (by simp [halive]), if_pos hnew, if_pos hsucc]

lemma Pet.train_failure (p : Pet) (t : String) (r now : ℚ) (halive : p.is_alive = true)
    (hnew : lowerMem p.tricks t = false)
    (hfail : ¬ r < 6/10 + (3/10) * p.personality.get_trait_influence "trainability") :
    p.train t r now = { p with last_interaction := now } := by
  simp only [Pet.train]
  rw [if_neg (by simp [halive]), if_pos hnew, if_neg hfail]

lemma Pet.train_known (p : Pet) (t : String) (r now : ℚ) (halive : p.is_alive = true)
    (hknown : lowerMem p.tricks t = true) : p.train t r now = p := by
  simp only [Pet.train]
  rw [if_neg (by simp [halive]), if_neg (by simp [hknown])]

lemma lowerMem_append_singleton (xs : List String) (t t' : String)
    (h : t'.lower = t.lower) : lowerMem (xs ++ [t]) t' = true := by
  simp [lowerMem, h]

/-- Claim C7: on a live pet that does not yet know trick t, a
successful train call appends t and stamps the interaction time; a
second call with any casing of t is a complete no-op (so the time stamp
is not renewed) and the trick list holds t exactly once
case-insensitively; a failed attempt changes nothing but still stamps
the interaction time. -/
theorem c7_train_twice (p : Pet) (t : String) (r1 now1 : ℚ)
    (halive : p.is_alive = true)
    (hnew : lowerMem p.tricks t = false)
    (hsucc : r1 < 6/10 + (3/10) * p.personality.get_trait_influence "trainability") :
    (p.train t r1 now1).tricks = p.tricks ++ [t] ∧
    (p.train t r1 now1).last_interaction = now1 ∧
    (∀ (t' : String) (r2 now2 : ℚ), t'.lower = t.lower →
      (p.train t r1 now1).train t' r2 now2 = p.train t r1 now1 ∧
      (p.train t r1 now1).tricks.filter (fun x => x.lower == t'.lower) = [t]) ∧
    (∀ (r' now' : ℚ), ¬ r' < 6/10 + (3/10) * p.personality.get_trait_influence "trainability" →
      (p.train t r' now').tricks = p.tricks ∧
      (p.train t r' now').needs = p.needs ∧
      (p.train t r' now').last_interaction = now') := by
  have h1 := Pet.train_success p t r1 now1 halive hnew hsucc
  have hnotmem : ∀ x ∈ p.tricks, ¬ x.lower = t.lower := by
    intro x hx
    simp only [lowerMem, List.contains_eq_any_beq, List.any_eq_false, List.mem_map] at hnew
    exact fun hxl => (hnew _ ⟨x, hx, rfl⟩) (by simp [hxl])
  refine ⟨by rw [h1], by rw [h1], fun t' r2 now2 hlow => ⟨?_, ?_⟩, fun r' now' hfail => ?_⟩
  · rw [h1]
    exact Pet.train_known _ t' r2 now2 halive
      (lowerMem_append_singleton p.tricks t t' hlow)
  · rw [h1]
    show (p.tricks ++ [t]).filter (fun x => x.lower == t'.lower) = [t]
    rw [List.filter_append]
    have hnil : p.tricks.filter (fun x => x.lower == t'.lower) = [] := by
      rw [List.filter_eq_nil_iff]
      intro a ha
      simp only [beq_iff_eq]
      rw [hlow]
      exact hnotmem a ha
    rw [hnil]
    simp [hlow]
  · rw [Pet.train_failure p t r' now' halive hnew hfail]
    exact ⟨rfl, rfl, rfl⟩

/-- Witness for C7: the concrete fresh pet learns "Sit" on a successful
draw; calling train "sit" right after is a full no-op, and the trick
list holds the trick exactly once; a failing draw changes only the time
stamp. -/
theorem c7_train_twice_witness :
    (freshPet.train "Sit" 0 1).tricks = freshPet.tricks ++ ["Sit"] ∧
    (freshPet.train "Sit" 0 1).last_interaction = 1 ∧
    (freshPet.train "Sit" 0 1).train "sit" 0 2 = freshPet.train "Sit" 0 1 ∧
    (freshPet.train "Sit" 0 1).tricks.filter (fun x => x.lower == "sit".lower) = ["Sit"] ∧
    (freshPet.train "Sit" (9/10) 3).tricks = freshPet.tricks ∧
    (freshPet.train "Sit" (9/10) 3).last_interaction = 3 := by
  have htr : freshPet.personality.get_trait_influence "trainability" = 1/2 := rfl
  obtain ⟨ha, hb, hc, hd⟩ := c7_train_twice freshPet "Sit" 0 1 rfl (by decide)
    (by rw [htr]; norm_num)
  have hcc := hc "sit" 0 2 (by decide)
  have hff := hd (9/10) 3 (by rw [htr]; norm_num)
  exact ⟨ha, hb, hcc.1, hcc.2, hff.1, hff.2.2⟩

lemma AdvancedPet.setHealth_diseases (s : AdvancedPet) (v : ℤ) :
    (s.setHealth v).diseases = s.diseases := by
  simp only [AdvancedPet.setHealth]
  split <;> rfl

lemma AdvancedPet.setHealth_health (s : AdvancedPet) (v : ℤ) :
    (s.setHealth v).health = max 0 (min 100 v) := by
  simp only [AdvancedPet.setHealth]
  split <;> rfl

/-- Claim C2 evaluation: on the concrete live pet whose disease list
holds "Flu", treat_disease "flu" with a succeeding draw reaches
list.remove "flu", which finds no exactly equal element and raises
ValueError — the call does not return normally and the state at the
raise is unchanged, although the case-insensitive membership test had
matched. -/
theorem c2_treat_disease_value_error :
    (sickAdvPet.treat_disease "flu" 0 7).2 = true ∧
    (sickAdvPet.treat_disease "flu" 0 7).1 = sickAdvPet ∧
    lowerMem sickAdvPet.diseases "flu" = true := by
  have hco : sickAdvPet.base.personality.get_trait_influence "cooperativeness" = 1 := rfl
  have hrem : removeFirst sickAdvPet.diseases "flu" = none := by decide
  refine ⟨?_, ?_, by decide⟩
  · simp only [AdvancedPet.treat_disease]
    rw [if_pos (by decide), if_pos (by rw [hco]; norm_num), hrem]
  · simp only [AdvancedPet.treat_disease]
    rw [if_pos (by decide), if_pos (by rw [hco]; norm_num), hrem]

/-- Counterexample for C1: a dead AdvancedPet (health 50, knows "sit",
has "flu", energy 2) is changed by contract_disease, by eat and play
and train through their health extensions, and by treat_disease — so
not every action method is a no-op on a dead pet. -/
theorem c1_dead_guard_counterexample :
    deadAdvPet.base.is_alive = false ∧
    deadAdvPet.contract_disease "pox" 1 1 2 5 ≠ deadAdvPet ∧
    deadAdvPet.eat 0 0 ≠ deadAdvPet ∧
    deadAdvPet.play 0 0 ≠ deadAdvPet ∧
    deadAdvPet.train "sit" 0 0 0 ≠ deadAdvPet ∧
    (deadAdvPet.treat_disease "flu" 0 5).1 ≠ deadAdvPet := by
  have hcon : (deadAdvPet.contract_disease "pox" 1 1 2 5).diseases = ["flu", "pox"] := by
    simp only [AdvancedPet.contract_disease, AdvancedPet.mapNeeds]
    rw [if_pos (by decide), AdvancedPet.setHealth_diseases]
    decide
  have heat : (deadAdvPet.eat 0 0).health = 53 := by
    have hb : Pet.eat deadAdvPet.base 0 = deadAdvPet.base := Pet.eat_dead _ _ rfl
    simp only [AdvancedPet.eat, hb]
    rw [if_pos (by norm_num : (0:ℚ) < 3/10), AdvancedPet.setHealth_health]
    show max 0 (min 100 (min 100 (deadAdvPet.health +
      pyInt (2 + 1 * deadAdvPet.base.personality.get_trait_influence "constitution")))) = 53
    rw [show deadAdvPet.base.personality.get_trait_influence "constitution" = 1 from rfl,
      show (2 + 1 * (1:ℚ)) = 3 from by norm_num,
      pyInt_eq_of 3 3 (by norm_num) (by norm_num) (by norm_num)]
    decide
  have hplay : (deadAdvPet.play 0 0).health = 47 := by
    have hb : Pet.play deadAdvPet.base 0 = deadAdvPet.base := Pet.play_dead _ _ rfl
    simp only [AdvancedPet.play, hb]
    rw [if_pos ⟨by decide, by norm_num⟩, AdvancedPet.setHealth_health]
    show max 0 (min 100 (max 0 (deadAdvPet.health -
      pyInt (3 - 1 * deadAdvPet.base.personality.get_trait_influence "resilience")))) = 47
    rw [show deadAdvPet.base.personality.get_trait_influence "resilience" = 0 from rfl,
      show (3 - 1 * (0:ℚ)) = 3 from by norm_num,
      pyInt_eq_of 3 3 (by norm_num) (by norm_num) (by norm_num)]
    decide
  have htrain : (deadAdvPet.train "sit" 0 0 0).health = 51 := by
    have hb : Pet.train deadAdvPet.base "sit" 0 0 = deadAdvPet.base := Pet.train_dead _ _ _ _ rfl
    simp only [AdvancedPet.train, hb]
    rw [if_pos ⟨by decide, by norm_num⟩, AdvancedPet.setHealth_health]
    decide
  have htreat : (deadAdvPet.treat_disease "flu" 0 5).1.diseases = [] := by
    have hco : deadAdvPet.base.personality.get_trait_influence "cooperativeness" = 1 := rfl
    simp only [AdvancedPet.treat_disease]
    rw [if_pos (by decide), if_pos (by rw [hco]; norm_num),
      show removeFirst deadAdvPet.diseases "flu" = some [] from by decide,
      AdvancedPet.setHealth_diseases]
  refine ⟨rfl, fun h => ?_, fun h => ?_, fun h => ?_, fun h => ?_, fun h => ?_⟩
  · rw [h] at hcon
    exact absurd hcon (by decide)
  · rw [h] at heat
    exact absurd heat (by decide)
  · rw [h] at hplay
    exact absurd hplay (by decide)
  · rw [h] at htrain
    exact absurd htrain (by decide)
  · rw [h] at htreat
    exact absurd htreat (by decide)

/-- Amended C1: a dead base Pet refuses every public operation — the
whole state is unchanged — and a dead AdvancedPet refuses the inherited
sleep, show_tricks, get_status and the inherited base portion of eat,
play and train; the counterexample shows the AdvancedPet health
extensions and the two disease methods are not guarded. -/
theorem c1_dead_guard_amended (p : Pet) (s : AdvancedPet) (now : ℚ)
    (hp : p.is_alive = false) (hs : s.base.is_alive = false) :
    (∀ op : PetOp, p.step op = p) ∧
    s.sleep now = s ∧
    s.show_tricks = s ∧
    s.get_status = s ∧
    Pet.eat s.base now = s.base ∧
    Pet.play s.base now = s.base ∧
    (∀ (t : String) (r : ℚ), Pet.train s.base t r now = s.base) := by
  refine ⟨fun op => Pet.step_dead p op hp, ?_, rfl, rfl,
    Pet.eat_dead _ _ hs, Pet.play_dead _ _ hs, fun t r => Pet.train_dead _ t r _ hs⟩
  show { s with base := Pet.sleep s.base now } = s
  rw [Pet.sleep_dead _ _ hs]

/-- Witness for the amended C1 at concrete dead pets. -/
theorem c1_dead_guard_amended_witness :
    Pet.step deadPet (PetOp.eat 1) = deadPet ∧
    AdvancedPet.sleep deadAdvPet 1 = deadAdvPet ∧
    AdvancedPet.get_status deadAdvPet = deadAdvPet := by
  have h := c1_dead_guard_amended deadPet deadAdvPet 1 rfl rfl
  exact ⟨h.1 (PetOp.eat 1), h.2.1, h.2.2.2.1⟩
